import Mathlib

/-
Verification of the iw4x-launcher self-update subsystem.

This file shallowly embeds the update discovery and installation logic of
src/launcher/launcher/update/update-discovery.cxx and
src/launcher/launcher/update/update-installer.cxx, and proves the key
behavioral properties of release selection, platform asset matching,
version resolution, archive-format dispatch, the backup/swap/rollback
ladder of replace_launcher, temporary-artifact cleanup, and the install
pipeline's error routing.

Filesystem state is modeled as a function from path strings to optional
file contents (an abstract byte-blob identifier); fallible filesystem
operations (std::filesystem calls taking an error_code) are modeled as
Option-returning functions driven by an explicit failure oracle, so that
every failure interleaving the code can encounter is quantified over.
-/

/-! ## String helpers (C++ std::string::find and prefix checks) -/

/-- Boolean prefix test on character lists (used to model
std::string::find returning position 0). -/
def listPrefOf : List Char → List Char → Bool
  | [], _ => true
  | _ :: _, [] => false
  | a :: as, b :: bs => a = b && listPrefOf as bs

/-- Index of the first occurrence of the needle in the haystack, as
std::string::find (none models std::string::npos). -/
def listFindSub (n : List Char) : List Char → Option Nat
  | [] => if listPrefOf n [] then some 0 else none
  | c :: t =>
    if listPrefOf n (c :: t) then some 0
    else
      match listFindSub n t with
      | some i => some (i + 1)
      | none => none

/-- Models `h.find (n) == 0` on std::string. -/
def strStartsWith (h n : String) : Bool := listPrefOf n.data h.data

/-- Models `h.find (n) != std::string::npos` on std::string. -/
def strContainsSub (h n : String) : Bool := (listFindSub n.data h.data).isSome

/-- Models `h.find (n)` on std::string as an optional position. -/
def strFindSub (h n : String) : Option Nat := listFindSub n.data h.data

/-- ASCII lowercasing of a string, as the std::transform/tolower loop in
update_installer::extract_launcher. -/
def strToLower (s : String) : String := String.mk (s.data.map Char.toLower)

/-! ## Data model (update-discovery.hxx / github api types) -/

/-- One downloadable file attached to a release
(github_api asset: name, browser_download_url, size). -/
structure Asset where
  name : String
  browser_download_url : String
  size : Nat
deriving DecidableEq, Repr

/-- One registry release (github_api release: tag_name, html_url, body,
draft, prerelease, assets). -/
structure Release where
  tag_name : String
  html_url : String
  body : String
  draft : Bool
  prerelease : Bool
  assets : List Asset
deriving DecidableEq, Repr

/-- The normalized selection result produced by update_discovery. The
version type is a parameter because launcher_version lives outside the
embedded sources; functions that need to parse versions take the parser
as an argument. An `Option (update_info V)` models the C++ value-with-
empty-sentinel pattern (`update_info ()` / `ui.empty ()`). -/
structure update_info (V : Type) where
  version : V
  tag_name : String
  release_url : String
  body : String
  prerelease : Bool
  asset_url : String
  asset_name : String
  asset_size : Nat
deriving DecidableEq, Repr

/-- The supported platforms of update_discovery::current_platform. -/
inductive osPlatform
  | windows_x64
  | linux_x64
  | unknown
deriving DecidableEq, Repr

/-! ## Release discovery (update-discovery.cxx) -/

/-- The release batch size requested from the registry by
update_discovery::fetch_latest_release (`get_releases (o, r, 20)`). -/
def releases_request_limit : Nat := 20

/-- The selection loop of update_discovery::fetch_latest_release: walk the
batch in order, skip drafts unconditionally, skip prereleases unless
include_prerelease is set, stop at the first release that passes. -/
def selectRelease (inc : Bool) : List Release → Option Release
  | [] => none
  | i :: rest =>
    if i.draft then selectRelease inc rest
    else if inc || !i.prerelease then some i
    else selectRelease inc rest

/-- The platform token/extension pair hardcoded in
update_discovery::find_platform_asset (none models the unknown-platform
and default switch branches returning nullopt). -/
def platformProfile : osPlatform → Option (String × String)
  | osPlatform.windows_x64 => some ("x86_64-windows", ".zip")
  | osPlatform.linux_x64 => some ("x86_64-linux-glibc", ".tar.xz")
  | osPlatform.unknown => none

/-- update_discovery::find_platform_asset: first asset whose name contains
the platform token, contains the extension, and starts with "launcher-". -/
def findPlatformAsset (p : osPlatform) (r : Release) : Option Asset :=
  match platformProfile p with
  | none => none
  | some pr =>
    r.assets.find? fun a =>
      strContainsSub a.name pr.1 && strContainsSub a.name pr.2 &&
      strStartsWith a.name "launcher-"

/-- update_discovery::parse_asset_version: strip the "launcher-" prefix
and the first known platform suffix found in the name, then parse the
remainder with the launcher_version parser (passed in as `parse`). -/
def parseAssetVersion {V : Type} (parse : String → Option V) (n : String) :
    Option V :=
  if strStartsWith n "launcher-" = true then
    let b : Nat := 9
    let e : Option Nat :=
      match strFindSub n "-x86_64-windows" with
      | some i => some i
      | none => strFindSub n "-x86_64-linux-glibc"
    match e with
    | none => none
    | some ei =>
      if ei ≤ b then none
      else parse (String.mk ((n.data.drop b).take (ei - b)))
  else none

/-- The update_info record built by update_discovery::release_to_update_info
once a version has been resolved. -/
def mkUpdateInfo {V : Type} (v : V) (r : Release) (a : Asset) :
    update_info V :=
  ⟨v, r.tag_name, r.html_url, r.body, r.prerelease,
   a.browser_download_url, a.name, a.size⟩

/-- update_discovery::release_to_update_info: require a platform asset,
then resolve the version from the asset name, falling back to the release
tag, returning the empty sentinel if both parses fail. -/
def releaseToUpdateInfo {V : Type} (parse : String → Option V)
    (p : osPlatform) (r : Release) : Option (update_info V) :=
  match findPlatformAsset p r with
  | none => none
  | some a =>
    match parseAssetVersion parse a.name with
    | some v => some (mkUpdateInfo v r a)
    | none =>
      match parse r.tag_name with
      | some v => some (mkUpdateInfo v r a)
      | none => none

/-- update_discovery::fetch_latest_release after the registry query:
empty batch yields the empty sentinel, otherwise the selection loop runs
and the winner (if any) is converted to an update_info. -/
def fetchLatestRelease {V : Type} (parse : String → Option V)
    (p : osPlatform) (inc : Bool) (rs : List Release) :
    Option (update_info V) :=
  if rs = [] then none
  else
    match selectRelease inc rs with
    | none => none
    | some b => releaseToUpdateInfo parse p b

/-! ## Archive format dispatch (update_installer::extract_launcher) -/

/-- Result of the format dispatch in extract_launcher: `.unsupported e`
models the `throw runtime_error ("unsupported archive format: " + e)`
branch. -/
inductive archiveFormat
  | zip
  | tarxz
  | unsupported (e : String)
deriving DecidableEq, Repr

/-- Index of the last '.' in a character list (for modeling
std::filesystem::path::extension). -/
def lastDotIdx : List Char → Option Nat
  | [] => none
  | c :: t =>
    match lastDotIdx t with
    | some i => some (i + 1)
    | none => if c = '.' then some 0 else none

/-- std::filesystem::path::extension on a filename: the substring from the
last period, empty for dot/dot-dot and for filenames whose only period is
the leading one. -/
def pathExtension (fn : String) : String :=
  if fn = "." ∨ fn = ".." then ""
  else
    match lastDotIdx fn.data with
    | none => ""
    | some 0 => ""
    | some i => String.mk (fn.data.drop i)

/-- The tar.xz test of extract_launcher:
`fn.size () > 7 && fn.substr (fn.size () - 7) == ".tar.xz"` — note this is
a case-sensitive check on the raw filename. -/
def isTarXzName (fn : String) : Bool :=
  decide (7 < fn.data.length) &&
  decide (fn.data.drop (fn.data.length - 7) = ".tar.xz".data)

/-- The format dispatch of extract_launcher: lowercased extension equal to
".zip" selects the zip path, else the case-sensitive ".tar.xz" filename
suffix selects the tar path, else the unsupported-format error is thrown. -/
def extractDispatch (fn : String) : archiveFormat :=
  let e := strToLower (pathExtension fn)
  if e = ".zip" then archiveFormat.zip
  else if isTarXzName fn = true then archiveFormat.tarxz
  else archiveFormat.unsupported e

/-! ## Filesystem model for the atomic replacement engine

A filesystem state maps path strings to the contents (an abstract blob
id) of the regular file at that path. Each std::filesystem operation that
takes an error_code is modeled as an Option-valued function whose failure
is controlled by an explicit oracle flag, so theorems quantify over every
failure interleaving. A failed operation leaves the state unchanged. -/

def FS : Type := String → Option Nat

/-- Write (or overwrite) the file at `p` with contents `c`. -/
def fsSet (fs : FS) (p : String) (c : Nat) : FS :=
  fun q => if q = p then some c else fs q

/-- Delete the file at `p`. -/
def fsDel (fs : FS) (p : String) : FS :=
  fun q => if q = p then none else fs q

/-- std::filesystem::exists. -/
def fsExists (fs : FS) (p : String) : Bool := (fs p).isSome

/-- fs::copy_file with overwrite_existing: fails when the oracle says so
or when the source is missing; on success the destination holds the
source's bytes. -/
def copyFile (fail : Bool) (fs : FS) (src dst : String) : Option FS :=
  if fail = true then none
  else
    match fs src with
    | none => none
    | some c => some (fsSet fs dst c)

/-- fs::rename: fails when the oracle says so or when the source is
missing; on success the source disappears and the destination holds its
bytes (POSIX overwrite semantics). -/
def renameFile (fail : Bool) (fs : FS) (src dst : String) : Option FS :=
  if fail = true then none
  else
    match fs src with
    | none => none
    | some c => some (fsSet (fsDel fs src) dst c)

/-- fs::remove with an error_code: removing a missing file succeeds
without error, so only the oracle makes it fail. -/
def removeFile (fail : Bool) (fs : FS) (p : String) : Option FS :=
  if fail = true then none else some (fsDel fs p)

/-! ## update_result and the failure oracle -/

/-- update_result: success flag, installed path, backup path and error
message (update-installer.hxx; field population per update-installer.cxx:
backup_path is set iff a backup was actually created). -/
structure update_result where
  success : Bool
  installed_path : String
  backup_path : String
  error_message : String
deriving DecidableEq, Repr

/-- One flag per fallible filesystem call inside
update_installer::replace_launcher, in source order. -/
structure Oracle where
  copyStageFail : Bool
  removeStaleFail : Bool
  renameBackupFail : Bool
  copyBackupFail : Bool
  removeStagingFail : Bool
  renameInstallFail : Bool
  copyInstallFail : Bool
  removeStagingAfterCopyFail : Bool
  emergencyRenameFail : Bool
deriving DecidableEq, Repr

/-- Failure flags for the two filesystem calls in
update_installer::rollback. -/
structure RollOracle where
  removeFail : Bool
  renameFail : Bool
deriving DecidableEq, Repr

/-! ## update_installer::replace_launcher (lines 517-611) -/

/-- The stale-backup removal inside the backup step: if a previous
`.backup` exists it is removed first (its error_code is overwritten by
the following rename and thus ignored). -/
def stalePhase (o : Oracle) (fs1 : FS) (b : String) : FS :=
  if fsExists fs1 b = true then
    match removeFile o.removeStaleFail fs1 b with
    | some f => f
    | none => fs1
  else fs1

/-- Step 3 and 4 of replace_launcher: rename the staged `.new` into place;
on failure copy it over the target and delete the staging copy (the
delete's error is swallowed); if the copy also fails, set the error
message and, only when a backup was recorded and still exists, attempt
the best-effort emergency restore of the backup. -/
def installPhase (o : Oracle) (r : update_result) (fs : FS)
    (b s t : String) : update_result × FS :=
  match renameFile o.renameInstallFail fs s t with
  | some fs4 => ({ r with success := true }, fs4)
  | none =>
    match copyFile o.copyInstallFail fs s t with
    | some fs4 =>
      match removeFile o.removeStagingAfterCopyFail fs4 s with
      | some fs5 => ({ r with success := true }, fs5)
      | none => ({ r with success := true }, fs4)
    | none =>
      let r2 := { r with error_message := "failed to install new launcher" }
      if r.backup_path ≠ "" ∧ fsExists fs b = true then
        match renameFile o.emergencyRenameFail fs b t with
        | some fs4 => (r2, fs4)
        | none => (r2, fs)
      else (r2, fs)

/-- Step 2 of replace_launcher (the target exists): remove a stale backup,
rename the target to `.backup`, fall back to copying it there; if both
fail, record the error, delete the staging file on the spot (error
swallowed) and abort with no backup recorded; otherwise record the backup
and continue with the install phase. -/
def backupPhase (o : Oracle) (r : update_result) (fs1 : FS)
    (b s t : String) : update_result × FS :=
  let fs2 := stalePhase o fs1 b
  match renameFile o.renameBackupFail fs2 t b with
  | some fs3 => installPhase o { r with backup_path := b } fs3 b s t
  | none =>
    match copyFile o.copyBackupFail fs2 t b with
    | some fs3 => installPhase o { r with backup_path := b } fs3 b s t
    | none =>
      match removeFile o.removeStagingFail fs2 s with
      | some f =>
        ({ r with error_message := "failed to backup current launcher" }, f)
      | none =>
        ({ r with error_message := "failed to backup current launcher" }, fs2)

/-- update_installer::replace_launcher: record the installed path up
front, stage the new binary at `t ++ ".new"` (abort with no other change
on failure; the POSIX permission call has no content-level effect), run
the backup step only when the target exists, then swap. -/
def replaceLauncher (o : Oracle) (fs : FS) (nb t : String) :
    update_result × FS :=
  let b := t ++ ".backup"
  let s := t ++ ".new"
  let r : update_result := ⟨false, t, "", ""⟩
  match copyFile o.copyStageFail fs nb s with
  | none => ({ r with error_message := "failed to copy new binary" }, fs)
  | some fs1 =>
    if fsExists fs1 t = true then backupPhase o r fs1 b s t
    else installPhase o r fs1 b s t

/-- update_installer::rollback (lines 152-202): refuse when either path
is missing from the result; otherwise remove whatever sits at the
installed path (aborting on error), then move the backup back, failing if
it is missing or the rename errors. -/
def rollback (o : RollOracle) (fs : FS) (r : update_result) : Bool × FS :=
  if r.backup_path = "" ∨ r.installed_path = "" then (false, fs)
  else
    let restoreStep := fun (fs1 : FS) =>
      if fsExists fs1 r.backup_path = true then
        match renameFile o.renameFail fs1 r.backup_path r.installed_path with
        | some fs2 => (true, fs2)
        | none => (false, fs1)
      else (false, fs1)
    if fsExists fs r.installed_path = true then
      match removeFile o.removeFail fs r.installed_path with
      | some fs1 => restoreStep fs1
      | none => (false, fs)
    else restoreStep fs

/-! ## update_installer::cleanup (lines 204-228)

Cleanup distinguishes regular files from directories (fs::remove vs
fs::remove_all), so its filesystem model tags each entry with a kind.
Paths under a directory `p` are the paths starting with `p ++ "/"`. -/

/-- A directory entry: a regular file with contents, or a directory. -/
inductive entryK
  | file (c : Nat)
  | dir
deriving DecidableEq, Repr

/-- Filesystem state for the cleanup model. -/
def DFS : Type := String → Option entryK

/-- std::filesystem::exists in the cleanup model. -/
def dfsExists (fs : DFS) (p : String) : Bool := (fs p).isSome

/-- fs::remove of a single entry. -/
def dfsDel (fs : DFS) (p : String) : DFS :=
  fun q => if q = p then none else fs q

/-- fs::remove_all: the directory and everything below it disappear. -/
def removeTree (fs : DFS) (p : String) : DFS :=
  fun q =>
    if q = p ∨ strStartsWith q (p ++ "/") = true then none else fs q

/-- One iteration of the cleanup loop over one registered path: skip
missing entries, swallow a deletion error (the state is left as is, only
a warning is logged), otherwise remove_all a directory or remove a file. -/
def cleanupStep (failAt : String → Bool) (fs : DFS) (p : String) : DFS :=
  match fs p with
  | none => fs
  | some e =>
    if failAt p = true then fs
    else
      match e with
      | entryK.dir => removeTree fs p
      | entryK.file _ => dfsDel fs p

/-- update_installer::cleanup: fold the loop over the temp_files_ list in
order and clear the list afterwards, unconditionally. -/
def cleanupRun (failAt : String → Bool) (fs : DFS) (temps : List String) :
    DFS × List String :=
  (temps.foldl (cleanupStep failAt) fs, [])

/-! ## update_installer::install (lines 68-150)

The pipeline is modeled over abstract outcomes for the awaited download
and extraction stages (which either return a path or throw an exception
carrying a message), composed with the replaceLauncher model for the
swap. The model records whether cleanup ran before returning, whether
rollback was attempted, the contents of temp_files_ at the moment cleanup
ran, and which intermediate paths (archive, extraction directory) had
been created on disk by then. -/

/-- Outcome of an awaited pipeline stage: a value, or a thrown exception
with the message later caught by install's top-level handler. -/
inductive stepOut (α : Type)
  | ok (a : α)
  | thrown (msg : String)
deriving DecidableEq, Repr

/-- Observable trace of one install call. `tempsAtReturn` is temp_files_
when cleanup runs (empty if cleanup never ran); `created` lists the
archive file and extraction directory if they were created on disk. -/
structure pipeRes where
  result : update_result
  cleanupCalled : Bool
  rollbackCalled : Bool
  tempsAtReturn : List String
  created : List String
deriving DecidableEq, Repr

/-- update_installer::install. Arguments: emptiness of the update_info
and its asset_url (the entry sanity check), the archive path resolved by
download_archive together with its outcome and whether the transfer
created the file on disk before throwing, the extraction directory
(created and registered first thing by extract_launcher), the extraction
outcome (the located binary path or a thrown error), whether that binary
exists afterwards, and the oracle/filesystem/target for the swap. -/
def installPipe (uiEmpty : Bool) (assetUrl : String)
    (archivePath : String) (dlOut : stepOut Unit) (dlCreated : Bool)
    (exDir : String) (exOut : stepOut String) (binExists : Bool)
    (o : Oracle) (fs : FS) (t : String) : pipeRes :=
  if uiEmpty = true ∨ assetUrl = "" then
    ⟨⟨false, "", "", "invalid update info"⟩, false, false, [], []⟩
  else
    match dlOut with
    | stepOut.thrown m =>
      ⟨⟨false, "", "", m⟩, true, false, [],
       if dlCreated then [archivePath] else []⟩
    | stepOut.ok _ =>
      match exOut with
      | stepOut.thrown m =>
        ⟨⟨false, "", "", m⟩, true, false, [archivePath, exDir],
         [archivePath, exDir]⟩
      | stepOut.ok bpath =>
        if binExists = false then
          ⟨⟨false, "", "", "extraction failed: launcher binary not found"⟩,
           true, false, [archivePath, exDir, bpath], [archivePath, exDir]⟩
        else
          let rp := replaceLauncher o fs bpath t
          if rp.1.success = true then
            ⟨rp.1, true, false, [archivePath, exDir, bpath],
             [archivePath, exDir]⟩
          else
            ⟨rp.1, true, true, [archivePath, exDir, bpath],
             [archivePath, exDir]⟩

/-! ## Helper lemmas: strings and the filesystem model -/

theorem strApp_data (s u : String) : (s ++ u).data = s.data ++ u.data := rfl

theorem strApp_ne_self (t u : String) (hu : u.data ≠ []) : t ++ u ≠ t := by
  intro h
  have hd : t.data ++ u.data = t.data := by
    have := congrArg String.data h
    rwa [strApp_data] at this
  have hl := congrArg List.length hd
  rw [List.length_append] at hl
  have hz : u.data.length = 0 := by omega
  exact hu (List.length_eq_zero.mp hz)

theorem strApp_ne_empty (t u : String) (hu : u.data ≠ []) : t ++ u ≠ "" := by
  intro h
  have hd : t.data ++ u.data = [] := congrArg String.data h
  exact hu (List.append_eq_nil.mp hd).2

theorem strApp_right_ne (t u v : String) (huv : u.data ≠ v.data) :
    t ++ u ≠ t ++ v := by
  intro h
  have hd : t.data ++ u.data = t.data ++ v.data := by
    have := congrArg String.data h
    rwa [strApp_data, strApp_data] at this
  exact huv (List.append_cancel_left hd)

theorem fsSet_same (fs : FS) (p : String) (c : Nat) : fsSet fs p c p = some c := by
  simp [fsSet]

theorem fsSet_other (fs : FS) (p q : String) (c : Nat) (h : q ≠ p) :
    fsSet fs p c q = fs q := by
  simp [fsSet, h]

theorem fsDel_same (fs : FS) (p : String) : fsDel fs p p = none := by
  simp [fsDel]

theorem fsDel_other (fs : FS) (p q : String) (h : q ≠ p) :
    fsDel fs p q = fs q := by
  simp [fsDel, h]

theorem stalePhase_other (o : Oracle) (fs1 : FS) (b q : String) (h : q ≠ b) :
    stalePhase o fs1 b q = fs1 q := by
  unfold stalePhase
  cases hfe : fsExists fs1 b with
  | false => simp
  | true =>
    cases hf : o.removeStaleFail <;> simp [removeFile, hf, fsDel, h]

/-! ## Helper lemmas: the phases of replace_launcher -/

theorem installPhase_fields (o : Oracle) (r : update_result) (fs : FS)
    (b s t : String) :
    (installPhase o r fs b s t).1.installed_path = r.installed_path ∧
    (installPhase o r fs b s t).1.backup_path = r.backup_path ∧
    ((installPhase o r fs b s t).1.success = false →
      (installPhase o r fs b s t).1.error_message =
        "failed to install new launcher") := by
  unfold installPhase
  dsimp only
  (repeat' split) <;>
    exact ⟨rfl, rfl, by intro h; first | rfl | simp at h⟩

theorem installPhase_fail_ne (o : Oracle) (r : update_result) (fs : FS)
    (b s t : String) (h : (installPhase o r fs b s t).1.success = false) :
    (installPhase o r fs b s t).1.error_message ≠ "" := by
  have hm := (installPhase_fields o r fs b s t).2.2 h
  rw [hm]
  decide

theorem backupPhase_fields (o : Oracle) (r : update_result) (fs1 : FS)
    (b s t : String) :
    (backupPhase o r fs1 b s t).1.installed_path = r.installed_path ∧
    ((backupPhase o r fs1 b s t).1.success = false →
      (backupPhase o r fs1 b s t).1.error_message ≠ "") := by
  unfold backupPhase
  dsimp only
  (repeat' split) <;>
    first
    | exact ⟨(installPhase_fields _ _ _ _ _ _).1,
             fun h => installPhase_fail_ne _ _ _ _ _ _ h⟩
    | exact ⟨rfl, fun _ => by intro hc; simp at hc⟩

theorem replaceLauncher_fields (o : Oracle) (fs : FS) (nb t : String) :
    (replaceLauncher o fs nb t).1.installed_path = t ∧
    ((replaceLauncher o fs nb t).1.success = false →
      (replaceLauncher o fs nb t).1.error_message ≠ "") := by
  unfold replaceLauncher
  dsimp only
  (repeat' split) <;>
    first
    | exact ⟨rfl, fun _ => by intro hc; simp at hc⟩
    | exact ⟨(backupPhase_fields _ _ _ _ _ _).1,
             fun h => (backupPhase_fields _ _ _ _ _ _).2 h⟩
    | exact ⟨(installPhase_fields _ _ _ _ _ _).1,
             fun h => installPhase_fail_ne _ _ _ _ _ _ h⟩

/-! ## Claim C1: failure of the backup-creation step -/

/-- C1 (amended): if the backup step of replace_launcher fails (the
rename of T to T.backup fails and the fallback copy also fails), the
returned update_result has success = false, an error message, and an
empty backup_path; the original executable at T is untouched; the staging
file T.new is removed on the spot (when that best-effort delete does not
itself fail) rather than left for cleanup; and rollback on that result is
a no-op returning failure without touching the filesystem. -/
theorem replace_launcher_backup_fail_aborts
    (o : Oracle) (ro : RollOracle) (fs : FS) (nb t : String) (c c0 : Nat)
    (h1 : o.copyStageFail = false) (h2 : fs nb = some c)
    (h3 : fs t = some c0)
    (h4 : o.renameBackupFail = true) (h5 : o.copyBackupFail = true) :
    (replaceLauncher o fs nb t).1.success = false ∧
    (replaceLauncher o fs nb t).1.backup_path = "" ∧
    (replaceLauncher o fs nb t).1.error_message ≠ "" ∧
    (replaceLauncher o fs nb t).2 t = fs t ∧
    (o.removeStagingFail = false →
      (replaceLauncher o fs nb t).2 (t ++ ".new") = none) ∧
    rollback ro (replaceLauncher o fs nb t).2 (replaceLauncher o fs nb t).1 =
      (false, (replaceLauncher o fs nb t).2) := by
  have hts : t ≠ t ++ ".new" := (strApp_ne_self t ".new" (by decide)).symm
  have htb : t ≠ t ++ ".backup" := (strApp_ne_self t ".backup" (by decide)).symm
  have hex : fsExists (fsSet fs (t ++ ".new") c) t = true := by
    rw [fsExists, fsSet_other fs (t ++ ".new") t c hts, h3]
    rfl
  have hrl : replaceLauncher o fs nb t =
      backupPhase o ⟨false, t, "", ""⟩ (fsSet fs (t ++ ".new") c)
        (t ++ ".backup") (t ++ ".new") t := by
    unfold replaceLauncher
    dsimp only
    simp [copyFile, h1, h2, hex]
  rw [hrl]
  unfold backupPhase
  dsimp only
  simp only [renameFile, h4, copyFile, h5, if_true, reduceIte]
  cases hrm : o.removeStagingFail with
  | false =>
    simp only [removeFile, Bool.false_eq_true, reduceIte]
    refine ⟨by trivial, by trivial, by intro hc; simp at hc, ?_, ?_, ?_⟩
    · rw [fsDel_other _ _ _ hts,
          stalePhase_other o _ (t ++ ".backup") t htb,
          fsSet_other fs (t ++ ".new") t c hts]
    · intro _
      exact fsDel_same _ _
    · simp [rollback]
  | true =>
    simp only [removeFile, reduceIte]
    refine ⟨by trivial, by trivial, by intro hc; simp at hc, ?_, ?_, ?_⟩
    · rw [stalePhase_other o _ (t ++ ".backup") t htb,
          fsSet_other fs (t ++ ".new") t c hts]
    · intro hc
      exact absurd hc (by decide)
    · simp [rollback]

/-- Concrete oracle for the backup-failure scenario: both the rename of T
to T.backup and the fallback copy fail; everything else succeeds. -/
def oraBackupFail : Oracle := ⟨false, false, true, true, false, false, false, false, false⟩

/-- Rollback oracle in which neither filesystem call fails. -/
def rolNoop : RollOracle := ⟨false, false⟩

/-- Concrete starting filesystem: the new binary at "bin" and the live
executable at "app". -/
def fsLive : FS :=
  fun q => if q = "bin" then some 2 else if q = "app" then some 1 else none

/-- C1 counterexample to the claim as stated: after the backup step fails
both ways, the staging file T.new is not left on disk for cleanup — the
code removed it on the spot (and T itself is untouched, the result
failed). -/
theorem replace_launcher_staging_removed_cex :
    (replaceLauncher oraBackupFail fsLive "bin" "app").1.success = false ∧
    (replaceLauncher oraBackupFail fsLive "bin" "app").1.backup_path = "" ∧
    (replaceLauncher oraBackupFail fsLive "bin" "app").2 "app.new" = none ∧
    (replaceLauncher oraBackupFail fsLive "bin" "app").2 "app" = some 1 := by
  decide

/-- Witness for C1 at the concrete scenario. -/
theorem replace_launcher_backup_fail_aborts_w :
    (replaceLauncher oraBackupFail fsLive "bin" "app").1.success = false ∧
    (replaceLauncher oraBackupFail fsLive "bin" "app").1.backup_path = "" ∧
    (replaceLauncher oraBackupFail fsLive "bin" "app").1.error_message ≠ "" ∧
    (replaceLauncher oraBackupFail fsLive "bin" "app").2 "app" = fsLive "app" ∧
    (replaceLauncher oraBackupFail fsLive "bin" "app").2 ("app" ++ ".new") = none ∧
    rollback rolNoop (replaceLauncher oraBackupFail fsLive "bin" "app").2
        (replaceLauncher oraBackupFail fsLive "bin" "app").1 =
      (false, (replaceLauncher oraBackupFail fsLive "bin" "app").2) := by
  have h := replace_launcher_backup_fail_aborts oraBackupFail rolNoop fsLive
    "bin" "app" 2 1 rfl rfl rfl rfl rfl
  exact ⟨h.1, h.2.1, h.2.2.1, h.2.2.2.1, h.2.2.2.2.1 rfl, h.2.2.2.2.2⟩

/-! ## Claim C10: installed_path is set unconditionally -/

/-- C10: replace_launcher records installed_path = T at entry on every
path, so every result it returns (failed or successful) carries a
non-empty installed_path whenever T is non-empty, and rollback's
both-paths-established guard degenerates to just "a backup was recorded
in this result". -/
theorem replace_launcher_installed_path_invariant
    (o : Oracle) (fs : FS) (nb t : String) (ht : t ≠ "") :
    (replaceLauncher o fs nb t).1.installed_path = t ∧
    (replaceLauncher o fs nb t).1.installed_path ≠ "" ∧
    (((replaceLauncher o fs nb t).1.backup_path = "" ∨
        (replaceLauncher o fs nb t).1.installed_path = "") ↔
      (replaceLauncher o fs nb t).1.backup_path = "") := by
  have h := (replaceLauncher_fields o fs nb t).1
  refine ⟨h, ?_, ?_, ?_⟩
  · rw [h]
    exact ht
  · intro hc
    cases hc with
    | inl hb => exact hb
    | inr hi => exact absurd (h ▸ hi) ht
  · exact fun hb => Or.inl hb

/-- Witness for C10 at a concrete call. -/
theorem replace_launcher_installed_path_invariant_w :
    (replaceLauncher oraBackupFail fsLive "bin" "app").1.installed_path = "app" ∧
    (replaceLauncher oraBackupFail fsLive "bin" "app").1.installed_path ≠ "" := by
  have h := replace_launcher_installed_path_invariant oraBackupFail fsLive
    "bin" "app" (by decide)
  exact ⟨h.1, h.2.1⟩

/-! ## Reduction lemmas for the install phase -/

theorem installPhase_copyOk (o : Oracle) (r : update_result) (fs : FS)
    (b s t : String) (c : Nat)
    (hri : o.renameInstallFail = true) (hci : o.copyInstallFail = false)
    (hs : fs s = some c) (hts : t ≠ s) :
    (installPhase o r fs b s t).1 = { r with success := true } ∧
    (installPhase o r fs b s t).2 t = some c := by
  have e1 : renameFile o.renameInstallFail fs s t = none := by rw [hri]; rfl
  have e2 : copyFile o.copyInstallFail fs s t = some (fsSet fs t c) := by
    rw [hci]; unfold copyFile; rw [hs]; rfl
  unfold installPhase
  rw [e1, e2]
  dsimp only
  cases haf : o.removeStagingAfterCopyFail with
  | false =>
    have e3 : removeFile false (fsSet fs t c) s =
        some (fsDel (fsSet fs t c) s) := rfl
    rw [e3]
    dsimp only
    refine ⟨rfl, ?_⟩
    show fsDel (fsSet fs t c) s t = some c
    rw [fsDel_other _ s t hts, fsSet_same]
  | true =>
    have e3 : removeFile true (fsSet fs t c) s = none := rfl
    rw [e3]
    dsimp only
    refine ⟨rfl, ?_⟩
    show fsSet fs t c t = some c
    rw [fsSet_same]

theorem installPhase_copyFail_restore (o : Oracle) (r : update_result)
    (fs : FS) (b s t : String) (c0 : Nat)
    (hri : o.renameInstallFail = true) (hci : o.copyInstallFail = true)
    (hem : o.emergencyRenameFail = false)
    (hbp : r.backup_path ≠ "") (hb : fs b = some c0) :
    installPhase o r fs b s t =
      ({ r with error_message := "failed to install new launcher" },
       fsSet (fsDel fs b) t c0) := by
  have e1 : renameFile o.renameInstallFail fs s t = none := by rw [hri]; rfl
  have e2 : copyFile o.copyInstallFail fs s t = none := by rw [hci]; rfl
  have e4 : renameFile o.emergencyRenameFail fs b t =
      some (fsSet (fsDel fs b) t c0) := by
    rw [hem]; unfold renameFile; rw [hb]; rfl
  have hcond : r.backup_path ≠ "" ∧ fsExists fs b = true :=
    ⟨hbp, by rw [fsExists, hb]; rfl⟩
  unfold installPhase
  rw [e1, e2]
  dsimp only
  rw [if_pos hcond, e4]

theorem installPhase_copyFail_noBackup (o : Oracle) (r : update_result)
    (fs : FS) (b s t : String)
    (hri : o.renameInstallFail = true) (hci : o.copyInstallFail = true)
    (hbp : r.backup_path = "") :
    installPhase o r fs b s t =
      ({ r with error_message := "failed to install new launcher" }, fs) := by
  have e1 : renameFile o.renameInstallFail fs s t = none := by rw [hri]; rfl
  have e2 : copyFile o.copyInstallFail fs s t = none := by rw [hci]; rfl
  unfold installPhase
  rw [e1, e2]
  dsimp only
  rw [if_neg fun hc => hc.1 hbp]

theorem backupPhase_renameOk (o : Oracle) (r : update_result) (fs1 : FS)
    (b s t : String) (c0 : Nat)
    (hrb : o.renameBackupFail = false)
    (ht2 : stalePhase o fs1 b t = some c0) :
    backupPhase o r fs1 b s t =
      installPhase o { r with backup_path := b }
        (fsSet (fsDel (stalePhase o fs1 b) t) b c0) b s t := by
  have e1 : renameFile o.renameBackupFail (stalePhase o fs1 b) t b =
      some (fsSet (fsDel (stalePhase o fs1 b) t) b c0) := by
    rw [hrb]; unfold renameFile; rw [ht2]; rfl
  unfold backupPhase
  dsimp only
  rw [e1]

theorem replaceLauncher_stage (o : Oracle) (fs : FS) (nb t : String) (c : Nat)
    (h1 : o.copyStageFail = false) (h2 : fs nb = some c) :
    replaceLauncher o fs nb t =
      (if fsExists (fsSet fs (t ++ ".new") c) t = true then
        backupPhase o ⟨false, t, "", ""⟩ (fsSet fs (t ++ ".new") c)
          (t ++ ".backup") (t ++ ".new") t
      else
        installPhase o ⟨false, t, "", ""⟩ (fsSet fs (t ++ ".new") c)
          (t ++ ".backup") (t ++ ".new") t) := by
  have e0 : copyFile o.copyStageFail fs nb (t ++ ".new") =
      some (fsSet fs (t ++ ".new") c) := by
    rw [h1]; unfold copyFile; rw [h2]; rfl
  unfold replaceLauncher
  dsimp only
  rw [e0]

/-! ## Claim C2: step-3 fallback ladder of replace_launcher -/

/-- C2: whenever the rename of T.new to T fails, replace_launcher falls
back to copying T.new over T — on success the new binary's bytes end up
at T with a successful result; if the copy also fails it returns a failed
result with an error message, attempting the emergency restore of
T.backup (which puts the original bytes back at T) only when a backup was
recorded — with no backup recorded (fresh target), no restore happens and
T stays absent. -/
theorem replace_launcher_install_fallback
    (o : Oracle) (fs : FS) (nb t : String) (c c0 : Nat)
    (h1 : o.copyStageFail = false) (h2 : fs nb = some c)
    (hri : o.renameInstallFail = true) :
    (fs t = some c0 → o.renameBackupFail = false → o.copyInstallFail = false →
      (replaceLauncher o fs nb t).1.success = true ∧
      (replaceLauncher o fs nb t).2 t = some c) ∧
    (fs t = some c0 → o.renameBackupFail = false → o.copyInstallFail = true →
        o.emergencyRenameFail = false →
      (replaceLauncher o fs nb t).1.success = false ∧
      (replaceLauncher o fs nb t).1.error_message ≠ "" ∧
      (replaceLauncher o fs nb t).1.backup_path = t ++ ".backup" ∧
      (replaceLauncher o fs nb t).2 t = some c0) ∧
    (fs t = none → o.copyInstallFail = true →
      (replaceLauncher o fs nb t).1.success = false ∧
      (replaceLauncher o fs nb t).1.error_message ≠ "" ∧
      (replaceLauncher o fs nb t).1.backup_path = "" ∧
      (replaceLauncher o fs nb t).2 t = none) := by
  have hts : t ≠ t ++ ".new" := (strApp_ne_self t ".new" (by decide)).symm
  have htb : t ≠ t ++ ".backup" := (strApp_ne_self t ".backup" (by decide)).symm
  have hst : t ++ ".new" ≠ t := strApp_ne_self t ".new" (by decide)
  have hsb : t ++ ".new" ≠ t ++ ".backup" := strApp_right_ne t ".new" ".backup" (by decide)
  have hbne : t ++ ".backup" ≠ "" := strApp_ne_empty t ".backup" (by decide)
  refine ⟨?_, ?_, ?_⟩
  · -- A: copy fallback succeeds
    intro h3 hrb hci
    have hex : fsExists (fsSet fs (t ++ ".new") c) t = true := by
      rw [fsExists, fsSet_other fs (t ++ ".new") t c hts, h3]; rfl
    have hrl := replaceLauncher_stage o fs nb t c h1 h2
    rw [if_pos hex] at hrl
    have hfs2t : stalePhase o (fsSet fs (t ++ ".new") c) (t ++ ".backup") t
        = some c0 := by
      rw [stalePhase_other o _ (t ++ ".backup") t htb,
          fsSet_other fs (t ++ ".new") t c hts, h3]
    rw [backupPhase_renameOk o _ _ _ _ _ c0 hrb hfs2t] at hrl
    have hfs3s :
        fsSet (fsDel (stalePhase o (fsSet fs (t ++ ".new") c) (t ++ ".backup")) t)
          (t ++ ".backup") c0 (t ++ ".new") = some c := by
      rw [fsSet_other _ (t ++ ".backup") (t ++ ".new") c0 hsb,
          fsDel_other _ t (t ++ ".new") hst,
          stalePhase_other o _ (t ++ ".backup") (t ++ ".new") hsb,
          fsSet_same]
    have hip := installPhase_copyOk o ⟨false, t, t ++ ".backup", ""⟩
      (fsSet (fsDel (stalePhase o (fsSet fs (t ++ ".new") c) (t ++ ".backup")) t)
        (t ++ ".backup") c0)
      (t ++ ".backup") (t ++ ".new") t c hri hci hfs3s hts
    rw [hrl]
    exact ⟨by rw [hip.1], hip.2⟩
  · -- B: copy fallback fails too, emergency restore with recorded backup
    intro h3 hrb hci hem
    have hex : fsExists (fsSet fs (t ++ ".new") c) t = true := by
      rw [fsExists, fsSet_other fs (t ++ ".new") t c hts, h3]; rfl
    have hrl := replaceLauncher_stage o fs nb t c h1 h2
    rw [if_pos hex] at hrl
    have hfs2t : stalePhase o (fsSet fs (t ++ ".new") c) (t ++ ".backup") t
        = some c0 := by
      rw [stalePhase_other o _ (t ++ ".backup") t htb,
          fsSet_other fs (t ++ ".new") t c hts, h3]
    rw [backupPhase_renameOk o _ _ _ _ _ c0 hrb hfs2t] at hrl
    have hip := installPhase_copyFail_restore o ⟨false, t, t ++ ".backup", ""⟩
      (fsSet (fsDel (stalePhase o (fsSet fs (t ++ ".new") c) (t ++ ".backup")) t)
        (t ++ ".backup") c0)
      (t ++ ".backup") (t ++ ".new") t c0 hri hci hem hbne (fsSet_same _ _ _)
    rw [hip] at hrl
    rw [hrl]
    refine ⟨rfl, by intro hc; simp at hc, rfl, ?_⟩
    exact fsSet_same _ _ _
  · -- C: no backup recorded (target absent), copy fails, no restore
    intro h3 hci
    have hex : fsExists (fsSet fs (t ++ ".new") c) t = false := by
      rw [fsExists, fsSet_other fs (t ++ ".new") t c hts, h3]; rfl
    have hrl := replaceLauncher_stage o fs nb t c h1 h2
    rw [hex] at hrl
    rw [if_neg (by decide)] at hrl
    have hip := installPhase_copyFail_noBackup o ⟨false, t, "", ""⟩
      (fsSet fs (t ++ ".new") c) (t ++ ".backup") (t ++ ".new") t hri hci rfl
    rw [hip] at hrl
    rw [hrl]
    refine ⟨rfl, by intro hc; simp at hc, rfl, ?_⟩
    show fsSet fs (t ++ ".new") c t = none
    rw [fsSet_other fs (t ++ ".new") t c hts, h3]

/-- Concrete oracle: step-3 rename fails, its copy fallback succeeds. -/
def oraRenInstFail : Oracle := ⟨false, false, false, false, false, true, false, false, false⟩

/-- Concrete oracle: step-3 rename and copy both fail, emergency restore
succeeds. -/
def oraCopyInstFail : Oracle := ⟨false, false, false, false, false, true, true, false, false⟩

/-- Witness for C2: the copy fallback yields the new bytes at T with a
successful result, and the exhausted ladder restores the original bytes. -/
theorem replace_launcher_install_fallback_w :
    ((replaceLauncher oraRenInstFail fsLive "bin" "app").1.success = true ∧
      (replaceLauncher oraRenInstFail fsLive "bin" "app").2 "app" = some 2) ∧
    ((replaceLauncher oraCopyInstFail fsLive "bin" "app").1.success = false ∧
      (replaceLauncher oraCopyInstFail fsLive "bin" "app").1.backup_path =
        "app" ++ ".backup" ∧
      (replaceLauncher oraCopyInstFail fsLive "bin" "app").2 "app" = some 1) := by
  have hA := (replace_launcher_install_fallback oraRenInstFail fsLive
    "bin" "app" 2 1 rfl rfl rfl).1 rfl rfl rfl
  have hB := (replace_launcher_install_fallback oraCopyInstFail fsLive
    "bin" "app" 2 1 rfl rfl rfl).2.1 rfl rfl rfl rfl
  exact ⟨⟨hA.1, hA.2⟩, ⟨hB.1, hB.2.2.1, hB.2.2.2⟩⟩

/-! ## Claim C3: structured failure results and cleanup routing -/

/-- C3 counterexample to the claim as stated: the input-validation
failure path of install (empty update_info) returns a failed structured
result without invoking cleanup. -/
theorem install_invalid_info_no_cleanup_cex :
    (installPipe true "" "arc" (stepOut.ok ()) true "exd" (stepOut.ok "bin")
        true oraBackupFail fsLive "app").result.success = false ∧
    (installPipe true "" "arc" (stepOut.ok ()) true "exd" (stepOut.ok "bin")
        true oraBackupFail fsLive "app").result.error_message ≠ "" ∧
    (installPipe true "" "arc" (stepOut.ok ()) true "exd" (stepOut.ok "bin")
        true oraBackupFail fsLive "app").cleanupCalled = false := by
  refine ⟨rfl, ?_, rfl⟩
  show "invalid update info" ≠ ""
  decide

/-- C3 (amended): every result of install is structured — a false success
flag always comes with a non-empty error message (for pipeline errors the
thrown message, for swap failures the message set by replace_launcher) —
and cleanup is invoked before returning on every path that passes the
entry validation of the update_info; the validation-failure path alone
returns its failed result without invoking cleanup (the artifact set is
still empty there). -/
theorem install_failures_structured
    (uiEmpty : Bool) (assetUrl archivePath : String) (dlOut : stepOut Unit)
    (dlCreated : Bool) (exDir : String) (exOut : stepOut String)
    (binExists : Bool) (o : Oracle) (fs : FS) (t : String)
    (hdl : ∀ m, dlOut = stepOut.thrown m → m ≠ "")
    (hex : ∀ m, exOut = stepOut.thrown m → m ≠ "") :
    ((installPipe uiEmpty assetUrl archivePath dlOut dlCreated exDir exOut
        binExists o fs t).result.success = false →
      (installPipe uiEmpty assetUrl archivePath dlOut dlCreated exDir exOut
        binExists o fs t).result.error_message ≠ "") ∧
    (uiEmpty = false → assetUrl ≠ "" →
      (installPipe uiEmpty assetUrl archivePath dlOut dlCreated exDir exOut
        binExists o fs t).cleanupCalled = true) := by
  unfold installPipe
  by_cases hcond : uiEmpty = true ∨ assetUrl = ""
  · rw [if_pos hcond]
    try dsimp only
    refine ⟨fun _ => by decide, ?_⟩
    intro hue hurl
    cases hcond with
    | inl h => exact absurd (hue.symm.trans h) (by decide)
    | inr h => exact absurd h hurl
  · rw [if_neg hcond]
    cases dlOut with
    | thrown m =>
      try dsimp only
      exact ⟨fun _ => hdl m rfl, fun _ _ => rfl⟩
    | ok u =>
      cases exOut with
      | thrown m =>
        try dsimp only
        exact ⟨fun _ => hex m rfl, fun _ _ => rfl⟩
      | ok bpath =>
        try dsimp only
        cases hbin : binExists with
        | false =>
          rw [if_pos rfl]
          try dsimp only
          exact ⟨fun _ => by decide, fun _ _ => rfl⟩
        | true =>
          rw [if_neg (show ¬(true = false) from by decide)]
          try dsimp only
          by_cases hsucc : (replaceLauncher o fs bpath t).1.success = true
          · rw [if_pos hsucc]
            try dsimp only
            refine ⟨?_, fun _ _ => rfl⟩
            intro hc
            rw [hsucc] at hc
            exact absurd hc (by decide)
          · rw [if_neg hsucc]
            try dsimp only
            have hf : (replaceLauncher o fs bpath t).1.success = false := by
              revert hsucc
              cases (replaceLauncher o fs bpath t).1.success <;> simp
            exact ⟨fun _ => (replaceLauncher_fields o fs bpath t).2 hf,
                   fun _ _ => rfl⟩

/-- Witness for C3 at a concrete failing swap. -/
theorem install_failures_structured_w :
    (installPipe false "u" "arc" (stepOut.ok ()) true "exd"
        (stepOut.ok "bin") true oraBackupFail fsLive "app").cleanupCalled =
      true ∧
    (installPipe false "u" "arc" (stepOut.ok ()) true "exd"
        (stepOut.ok "bin") true oraBackupFail fsLive "app").result.error_message ≠
      "" := by
  have h := install_failures_structured false "u" "arc" (stepOut.ok ()) true
    "exd" (stepOut.ok "bin") true oraBackupFail fsLive "app"
    (fun m hm => nomatch hm) (fun m hm => nomatch hm)
  exact ⟨h.2 rfl (by decide), h.1 (by decide)⟩

/-! ## Claim C8: registration of intermediate artifacts -/

/-- C8 counterexample to the claim as stated: when the download throws
after the transfer created the archive file, install's catch block runs
cleanup with an empty artifact set — the archive path was never
registered, because install registers it only after download_archive
returns. -/
theorem install_archive_unregistered_cex :
    (installPipe false "u" "arc" (stepOut.thrown "boom") true "exd"
        (stepOut.ok "bin") true oraBackupFail fsLive "app").cleanupCalled =
      true ∧
    (installPipe false "u" "arc" (stepOut.thrown "boom") true "exd"
        (stepOut.ok "bin") true oraBackupFail fsLive "app").created =
      ["arc"] ∧
    (installPipe false "u" "arc" (stepOut.thrown "boom") true "exd"
        (stepOut.ok "bin") true oraBackupFail fsLive "app").tempsAtReturn =
      [] ∧
    ¬("arc" ∈ (installPipe false "u" "arc" (stepOut.thrown "boom") true "exd"
        (stepOut.ok "bin") true oraBackupFail fsLive "app").tempsAtReturn) := by
  refine ⟨rfl, rfl, rfl, ?_⟩
  intro hc
  simp only [show (installPipe false "u" "arc" (stepOut.thrown "boom") true
    "exd" (stepOut.ok "bin") true oraBackupFail fsLive "app").tempsAtReturn =
      [] from rfl] at hc
  exact List.not_mem_nil _ hc

/-- C8 (amended): the extraction directory is registered in the
temporary-artifact set immediately upon creation, before any throwing
extraction work, so once the download has returned, every abort point
sees all created intermediate paths in the set; the archive file however
is registered only after the download completes, so an abort inside the
download leaves a created archive unregistered. -/
theorem install_registration_policy
    (uiEmpty : Bool) (assetUrl archivePath : String) (dlOut : stepOut Unit)
    (dlCreated : Bool) (exDir : String) (exOut : stepOut String)
    (binExists : Bool) (o : Oracle) (fs : FS) (t : String) :
    (uiEmpty = false → assetUrl ≠ "" → dlOut = stepOut.ok () →
      ∀ p, p ∈ (installPipe uiEmpty assetUrl archivePath dlOut dlCreated
          exDir exOut binExists o fs t).created →
        p ∈ (installPipe uiEmpty assetUrl archivePath dlOut dlCreated
          exDir exOut binExists o fs t).tempsAtReturn) ∧
    (∀ m, uiEmpty = false → assetUrl ≠ "" → dlOut = stepOut.thrown m →
      (installPipe uiEmpty assetUrl archivePath dlOut dlCreated exDir exOut
        binExists o fs t).tempsAtReturn = []) := by
  unfold installPipe
  by_cases hcond : uiEmpty = true ∨ assetUrl = ""
  · rw [if_pos hcond]
    constructor
    · intro hue hurl _
      cases hcond with
      | inl h => exact absurd (hue.symm.trans h) (by decide)
      | inr h => exact absurd h hurl
    · intro m2 hue hurl _
      cases hcond with
      | inl h => exact absurd (hue.symm.trans h) (by decide)
      | inr h => exact absurd h hurl
  · rw [if_neg hcond]
    cases dlOut with
    | thrown m =>
      try dsimp only
      exact ⟨(fun _ _ h => nomatch h), fun m2 _ _ _ => rfl⟩
    | ok u =>
      refine ⟨?_, fun m2 _ _ h => nomatch h⟩
      intro _ _ _ p hp
      cases exOut with
      | thrown m =>
        try dsimp only at hp ⊢
        exact hp
      | ok bpath =>
        try dsimp only at hp ⊢
        cases binExists with
        | false =>
          rw [if_pos rfl] at hp ⊢
          try dsimp only at hp ⊢
          simp only [List.mem_cons, List.not_mem_nil, or_false] at hp ⊢
          tauto
        | true =>
          rw [if_neg (show ¬(true = false) from by decide)] at hp ⊢
          try dsimp only at hp ⊢
          by_cases hsucc : (replaceLauncher o fs bpath t).1.success = true
          · rw [if_pos hsucc] at hp ⊢
            try dsimp only at hp ⊢
            simp only [List.mem_cons, List.not_mem_nil, or_false] at hp ⊢
            tauto
          · rw [if_neg hsucc] at hp ⊢
            try dsimp only at hp ⊢
            simp only [List.mem_cons, List.not_mem_nil, or_false] at hp ⊢
            tauto

/-- Witness for C8 at a concrete abort inside extraction. -/
theorem install_registration_policy_w :
    "arc" ∈ (installPipe false "u" "arc" (stepOut.ok ()) true "exd"
        (stepOut.thrown "x") true oraBackupFail fsLive "app").tempsAtReturn ∧
    "exd" ∈ (installPipe false "u" "arc" (stepOut.ok ()) true "exd"
        (stepOut.thrown "x") true oraBackupFail fsLive "app").tempsAtReturn := by
  have h := (install_registration_policy false "u" "arc" (stepOut.ok ()) true
    "exd" (stepOut.thrown "x") true oraBackupFail fsLive "app").1
    rfl (by decide) rfl
  exact ⟨h "arc" (by decide), h "exd" (by decide)⟩

/-! ## Claim C4: release selection policy -/

theorem selectRelease_eq_find (inc : Bool) (rs : List Release) :
    selectRelease inc rs =
      rs.find? (fun i => !i.draft && (inc || !i.prerelease)) := by
  induction rs with
  | nil => rfl
  | cons i rest ih =>
    unfold selectRelease
    rw [List.find?]
    cases hd : i.draft <;> cases hpr : (inc || !i.prerelease) <;>
      simp [hd, hpr, ih]

/-- C4: fetch_latest_release walks the batch in order and picks the first
release that is not a draft and (unless include_prerelease) not a
prerelease — exactly List.find? on that filter, hence first-match; with
include_prerelease = false a selected release is never a draft or a
prerelease; and when the batch is empty or nothing passes the filter, the
empty sentinel is returned. The requested batch size is the constant 20. -/
theorem fetch_latest_release_filter {V : Type} (parse : String → Option V)
    (p : osPlatform) (inc : Bool) (rs : List Release) :
    selectRelease inc rs =
      rs.find? (fun i => !i.draft && (inc || !i.prerelease)) ∧
    (∀ b, selectRelease false rs = some b →
      b.draft = false ∧ b.prerelease = false) ∧
    (selectRelease inc rs = none → fetchLatestRelease parse p inc rs = none) ∧
    (rs = [] → fetchLatestRelease parse p inc rs = none) ∧
    releases_request_limit = 20 := by
  refine ⟨selectRelease_eq_find inc rs, ?_, ?_, ?_, rfl⟩
  · intro b hb
    rw [selectRelease_eq_find false rs] at hb
    have hp := List.find?_some hb
    simp only [Bool.and_eq_true, Bool.or_eq_true, Bool.not_eq_true'] at hp
    exact ⟨hp.1, by
      rcases hp.2 with h | h
      · exact absurd h (by decide)
      · exact h⟩
  · intro h
    unfold fetchLatestRelease
    by_cases hne : rs = []
    · rw [if_pos hne]
    · rw [if_neg hne, h]
  · intro h
    rw [h]
    rfl

/-- A version parser used to instantiate the discovery model at concrete
inputs: recognizes exactly the version string "2.0.0". -/
def parseEx : String → Option Nat := fun s => if s = "2.0.0" then some 200 else none

/-- Concrete draft release. -/
def relDraft : Release := ⟨"v2.2.0", "u", "b", true, false, []⟩

/-- Concrete prerelease. -/
def relPre : Release := ⟨"v2.1.0", "u", "b", false, true, []⟩

/-- Concrete windows release asset. -/
def assetWinEx : Asset := ⟨"launcher-2.0.0-x86_64-windows.zip", "http-url", 10⟩

/-- Concrete stable release carrying the windows asset. -/
def relStable : Release := ⟨"v2.0.0", "u", "b", false, false, [assetWinEx]⟩

/-- Witness for C4: a draft and a prerelease are skipped and the first
stable release wins; an empty batch yields the sentinel. -/
theorem fetch_latest_release_filter_w :
    selectRelease false [relDraft, relPre, relStable] = some relStable ∧
    relStable.draft = false ∧ relStable.prerelease = false ∧
    @fetchLatestRelease Nat parseEx osPlatform.windows_x64 false [] = none := by
  have h := @fetch_latest_release_filter Nat parseEx osPlatform.windows_x64
    false [relDraft, relPre, relStable]
  have h0 := @fetch_latest_release_filter Nat parseEx osPlatform.windows_x64
    false []
  have hsel : selectRelease false [relDraft, relPre, relStable] =
      some relStable := by decide
  exact ⟨hsel, (h.2.1 relStable hsel).1, (h.2.1 relStable hsel).2,
    h0.2.2.2.1 rfl⟩

/-! ## Claim C5: platform asset matching -/

/-- C5: find_platform_asset returns an asset only if its name passes all
three checks of the current platform's profile (the "launcher-" prefix,
the platform token and the extension, all as substring checks), and
returns no-match whenever the platform has no profile (unknown/default
switch branches). An asset missing any one check is therefore never the
returned one. -/
theorem find_platform_asset_all_conditions (p : osPlatform) (r : Release)
    (a : Asset) :
    (findPlatformAsset p r = some a →
      ∃ pr, platformProfile p = some pr ∧ a ∈ r.assets ∧
        strStartsWith a.name "launcher-" = true ∧
        strContainsSub a.name pr.1 = true ∧
        strContainsSub a.name pr.2 = true) ∧
    (platformProfile p = none → findPlatformAsset p r = none) := by
  constructor
  · intro h
    unfold findPlatformAsset at h
    cases hpp : platformProfile p with
    | none =>
      rw [hpp] at h
      exact Option.noConfusion h
    | some pr =>
      rw [hpp] at h
      have h2 : r.assets.find? (fun x =>
          strContainsSub x.name pr.1 && strContainsSub x.name pr.2 &&
          strStartsWith x.name "launcher-") = some a := h
      have hmem := List.mem_of_find?_eq_some h2
      have hp := List.find?_some h2
      simp only [Bool.and_eq_true] at hp
      exact ⟨pr, rfl, hmem, hp.2, hp.1.1, hp.1.2⟩
  · intro h
    unfold findPlatformAsset
    rw [h]

/-- Concrete release whose only asset is the linux tarball repackaged as
a zip: it must not match the windows profile (the platform token is
absent even though prefix and extension are present). -/
def relLinuxZip : Release :=
  ⟨"v1.2.3", "u", "b", false, false,
   [⟨"launcher-1.2.3-x86_64-linux-glibc.zip", "u", 1⟩]⟩

/-- Witness for C5: the windows profile matches the windows asset through
all three checks, rejects the linux-named zip, and the unknown platform
matches nothing. -/
theorem find_platform_asset_all_conditions_w :
    findPlatformAsset osPlatform.windows_x64 relLinuxZip = none ∧
    findPlatformAsset osPlatform.unknown relStable = none ∧
    strStartsWith assetWinEx.name "launcher-" = true ∧
    strContainsSub assetWinEx.name "x86_64-windows" = true ∧
    strContainsSub assetWinEx.name ".zip" = true := by
  have hu := (find_platform_asset_all_conditions osPlatform.unknown relStable
    assetWinEx).2 rfl
  have hw := (find_platform_asset_all_conditions osPlatform.windows_x64
    relStable assetWinEx).1 (by decide)
  obtain ⟨pr, hpr, hmem, hpre, hc1, hc2⟩ := hw
  have hpr2 : pr = ("x86_64-windows", ".zip") := by
    rw [show platformProfile osPlatform.windows_x64 =
        some ("x86_64-windows", ".zip") from rfl] at hpr
    exact (Option.some.inj hpr).symm
  subst hpr2
  exact ⟨by decide, hu, hpre, hc1, hc2⟩

/-! ## Claim C6: version resolution policy -/

/-- C6: for a release with a matched platform asset,
release_to_update_info resolves the version by parsing the asset filename
first (parse_asset_version strips the "launcher-" prefix and the first
known platform suffix and parses the remainder), falls back to parsing
the release tag, and yields the empty sentinel instead of raising when
both parses fail — so an unparsable release is never surfaced. -/
theorem release_version_resolution_policy {V : Type}
    (parse : String → Option V) (p : osPlatform) (r : Release) (a : Asset)
    (h : findPlatformAsset p r = some a) :
    releaseToUpdateInfo parse p r =
      (match parseAssetVersion parse a.name with
       | some v => some (mkUpdateInfo v r a)
       | none =>
         match parse r.tag_name with
         | some v => some (mkUpdateInfo v r a)
         | none => none) := by
  unfold releaseToUpdateInfo
  rw [h]

/-- Concrete asset whose embedded version does not parse, on a release
whose tag does. -/
def assetTagFallback : Asset := ⟨"launcher-x-x86_64-windows.zip", "u", 1⟩

/-- Concrete release exercising the tag fallback. -/
def relTagFallback : Release :=
  ⟨"2.0.0", "u", "b", false, false, [assetTagFallback]⟩

/-- Concrete asset and release where neither the asset name nor the tag
parses. -/
def assetUnparsable : Asset := ⟨"launcher-abc-x86_64-windows.zip", "u", 1⟩

/-- Concrete release with an unparsable version everywhere. -/
def relUnparsable : Release :=
  ⟨"vX", "u", "b", false, false, [assetUnparsable]⟩

/-- Witness for C6: the asset name wins when it parses; the tag is used
when the asset name fails; the empty sentinel is produced when both fail. -/
theorem release_version_resolution_policy_w :
    releaseToUpdateInfo parseEx osPlatform.windows_x64 relStable =
      some (mkUpdateInfo 200 relStable assetWinEx) ∧
    releaseToUpdateInfo parseEx osPlatform.windows_x64 relTagFallback =
      some (mkUpdateInfo 200 relTagFallback assetTagFallback) ∧
    releaseToUpdateInfo parseEx osPlatform.windows_x64 relUnparsable =
      none := by
  have h1 := release_version_resolution_policy parseEx osPlatform.windows_x64
    relStable assetWinEx (by decide)
  have h2 := release_version_resolution_policy parseEx osPlatform.windows_x64
    relTagFallback assetTagFallback (by decide)
  have h3 := release_version_resolution_policy parseEx osPlatform.windows_x64
    relUnparsable assetUnparsable (by decide)
  exact ⟨h1.trans (by decide), h2.trans (by decide), h3.trans (by decide)⟩

/-! ## Claim C7: archive format dispatch -/

/-- C7 counterexample to the claim as stated: dispatch is not uniformly
case-insensitive — "a.TAR.XZ" and "a.tar.xz" differ only in letter case
yet the former raises the unsupported-format error while the latter
selects the tar.xz path, because the ".tar.xz" suffix test is performed
case-sensitively on the raw filename (only the extension compared against
".zip" is lowercased). -/
theorem extract_dispatch_case_sensitive_cex :
    extractDispatch "a.TAR.XZ" = archiveFormat.unsupported ".xz" ∧
    extractDispatch "a.tar.xz" = archiveFormat.tarxz ∧
    strToLower "a.TAR.XZ" = "a.tar.xz" := by
  decide

/-- C7 (amended): extract_launcher supports exactly two formats, selected
by the archive's name: the zip path when the lowercased (hence
case-insensitive) extension equals ".zip", the tar.xz path when the raw
filename case-sensitively ends in ".tar.xz" (with length > 7), and every
other archive raises the unsupported-format hard error. -/
theorem extract_dispatch_spec (fn : String) :
    (strToLower (pathExtension fn) = ".zip" →
      extractDispatch fn = archiveFormat.zip) ∧
    (strToLower (pathExtension fn) ≠ ".zip" → isTarXzName fn = true →
      extractDispatch fn = archiveFormat.tarxz) ∧
    (strToLower (pathExtension fn) ≠ ".zip" → isTarXzName fn = false →
      extractDispatch fn = archiveFormat.unsupported
        (strToLower (pathExtension fn))) := by
  unfold extractDispatch
  dsimp only
  refine ⟨fun h => by rw [if_pos h], fun h1 h2 => ?_, fun h1 h2 => ?_⟩
  · rw [if_neg h1, if_pos h2]
  · rw [if_neg h1,
      if_neg (fun hc => by rw [h2] at hc; exact Bool.noConfusion hc)]

/-- Witness for C7 at the three dispatch outcomes. -/
theorem extract_dispatch_spec_w :
    extractDispatch "b.ZIP" = archiveFormat.zip ∧
    extractDispatch "b.tar.xz" = archiveFormat.tarxz ∧
    extractDispatch "b.rar" = archiveFormat.unsupported ".rar" := by
  have h1 := (extract_dispatch_spec "b.ZIP").1 (by decide)
  have h2 := (extract_dispatch_spec "b.tar.xz").2.1 (by decide) (by decide)
  have h3 := (extract_dispatch_spec "b.rar").2.2 (by decide) (by decide)
  exact ⟨h1, h2, h3.trans (by decide)⟩

/-! ## Claim C9: cleanup is best-effort and idempotent -/

theorem cleanupStep_preserve_none (failAt : String → Bool) (fs : DFS)
    (p q : String) (h : fs q = none) : cleanupStep failAt fs p q = none := by
  cases hp : fs p with
  | none => simp [cleanupStep, hp, h]
  | some e =>
    cases hf : failAt p with
    | true => simp [cleanupStep, hp, hf, h]
    | false =>
      cases e with
      | dir => simp [cleanupStep, hp, hf, removeTree, h]
      | file c => simp [cleanupStep, hp, hf, dfsDel, h]

theorem cleanupStep_self (failAt : String → Bool) (fs : DFS) (q : String)
    (h : failAt q = false) : cleanupStep failAt fs q q = none := by
  cases hp : fs q with
  | none => simp [cleanupStep, hp]
  | some e =>
    cases e with
    | dir => simp [cleanupStep, hp, h, removeTree]
    | file c => simp [cleanupStep, hp, h, dfsDel]

theorem foldl_cleanup_none (failAt : String → Bool) (l : List String) :
    ∀ (fs : DFS) (q : String), fs q = none →
      (List.foldl (cleanupStep failAt) fs l) q = none := by
  induction l with
  | nil => intro fs q h; exact h
  | cons p rest ih =>
    intro fs q h
    rw [List.foldl_cons]
    exact ih _ q (cleanupStep_preserve_none failAt fs p q h)

theorem cleanup_removes (failAt : String → Bool) (temps : List String) :
    ∀ (fs : DFS) (q : String), q ∈ temps → failAt q = false →
      (List.foldl (cleanupStep failAt) fs temps) q = none := by
  induction temps with
  | nil => intro fs q hq _; exact absurd hq (List.not_mem_nil q)
  | cons p rest ih =>
    intro fs q hq hf
    rw [List.foldl_cons]
    rcases List.mem_cons.mp hq with hqe | hmem
    · subst hqe
      exact foldl_cleanup_none failAt rest (cleanupStep failAt fs q) q
        (cleanupStep_self failAt fs q hf)
    · exact ih (cleanupStep failAt fs p) q hmem hf

/-- C9: cleanup is total over any failure pattern (deletion errors are
swallowed, so one failing entry never blocks the rest: every registered
entry whose deletion does not fail is gone afterwards), it clears the
artifact set unconditionally, a second call after any first call is a
no-op that also succeeds, and entries already deleted are skipped without
error. -/
theorem cleanup_best_effort_idempotent (failAt : String → Bool) (fs : DFS)
    (temps : List String) :
    (cleanupRun failAt fs temps).2 = [] ∧
    (∀ q, q ∈ temps → failAt q = false →
      ((cleanupRun failAt fs temps).1) q = none) ∧
    cleanupRun failAt (cleanupRun failAt fs temps).1
        (cleanupRun failAt fs temps).2 =
      ((cleanupRun failAt fs temps).1, []) ∧
    (∀ p, fs p = none → cleanupStep failAt fs p = fs) := by
  refine ⟨rfl, ?_, rfl, ?_⟩
  · intro q hq hf
    exact cleanup_removes failAt temps fs q hq hf
  · intro p h
    unfold cleanupStep
    rw [h]

/-- Failure pattern for the witness: only the entry "locked" fails to
delete (e.g. an AV lock / permission error). -/
def failLocked : String → Bool := fun p => p == "locked"

/-- Concrete filesystem for the cleanup witness: one file, one directory,
one locked file; the registered entry "gone" was already deleted. -/
def dfsEx : DFS :=
  fun q =>
    if q = "a" then some (entryK.file 1)
    else if q = "d" then some entryK.dir
    else if q = "locked" then some (entryK.file 2)
    else none

/-- Witness for C9: both deletable entries disappear despite the locked
entry in between, the artifact set comes back empty, and a second cleanup
round is a no-op. -/
theorem cleanup_best_effort_idempotent_w :
    (cleanupRun failLocked dfsEx ["a", "d", "locked", "gone"]).2 = [] ∧
    (cleanupRun failLocked dfsEx ["a", "d", "locked", "gone"]).1 "a" = none ∧
    (cleanupRun failLocked dfsEx ["a", "d", "locked", "gone"]).1 "d" = none ∧
    cleanupRun failLocked
        (cleanupRun failLocked dfsEx ["a", "d", "locked", "gone"]).1
        (cleanupRun failLocked dfsEx ["a", "d", "locked", "gone"]).2 =
      ((cleanupRun failLocked dfsEx ["a", "d", "locked", "gone"]).1, []) := by
  have h := cleanup_best_effort_idempotent failLocked dfsEx
    ["a", "d", "locked", "gone"]
  exact ⟨h.1, h.2.1 "a" (by decide) (by decide),
    h.2.1 "d" (by decide) (by decide), h.2.2.1⟩
